import Mathlib

set_option linter.unusedVariables false

/-!
Verification development for the draco campaign-management backend
(Go / echo / PostgreSQL).  The handlers of `handlers.go`, the route table
of `routes.go` and the repository layer are shallowly embedded as pure
Lean functions over an explicit relational store.  Machine `int` values
are modelled as `Int`; fallible operations return `Option` / `Except`.
External collaborators (HTTP router, SQL engine, JSON codec, password
hash, JWT signing) are modelled at the interface granularity the
handlers observe: request binding success is an explicit boolean, a
generic persistence failure of the current request is the explicit
boolean `dbFault`, and the password hash is an abstract parameter
`h : String → String`.
-/

namespace Draco

/-- Model of Go `unicode.IsSpace` restricted to the Latin-1 code points
Go recognises as space: ' ', '\t', '\n', '\v', '\f', '\r', NEL, NBSP.
(Higher Unicode space code points are omitted; no handler string in this
development uses them.) -/
def goIsSpace (c : Char) : Bool :=
  c = ' ' || c = '\t' || c = '\n' || c = '\x0b' || c = '\x0c' || c = '\r' ||
  c = '\x85' || c = '\xa0'

/-- Model of Go `strings.TrimSpace`: drop leading and trailing space. -/
def trimSpace (s : String) : String :=
  (((s.toList.dropWhile goIsSpace).reverse.dropWhile goIsSpace).reverse).asString

/-- Decimal digits of Go `strconv.Atoi`: a nonempty all-digit string. -/
def digitsToNat : List Char → Option Nat
  | [] => none
  | l => if l.all (fun c => c.isDigit) then
           some (l.foldl (fun acc c => acc * 10 + (c.toNat - 48)) 0)
         else none

/-- Model of Go `strconv.Atoi`: optional sign followed by at least one
decimal digit; anything else is an error (`none`).  Overflow is not
modelled (`Int` is unbounded). -/
def atoi (s : String) : Option Int :=
  match s.toList with
  | '+' :: rest => (digitsToNat rest).map Int.ofNat
  | '-' :: rest => (digitsToNat rest).map (fun n => -(n : Int))
  | l => (digitsToNat l).map Int.ofNat

/-- Value of one hexadecimal digit, as in Go `net/url.ishex`/`unhex`. -/
def hexDigit (c : Char) : Option Nat :=
  if '0' ≤ c ∧ c ≤ '9' then some (c.toNat - 48)
  else if 'a' ≤ c ∧ c ≤ 'f' then some (c.toNat - 87)
  else if 'A' ≤ c ∧ c ≤ 'F' then some (c.toNat - 55)
  else none

/-- Character-level model of Go `net/url.QueryUnescape`: `%HH` decodes
to the byte `HH` (an error when `%` is not followed by two hex digits),
`+` decodes to a space, every other character is literal. -/
def unescapeChars : List Char → Option (List Char)
  | [] => some []
  | '%' :: a :: b :: rest =>
      match hexDigit a, hexDigit b, unescapeChars rest with
      | some ha, some hb, some r => some (Char.ofNat (ha * 16 + hb) :: r)
      | _, _, _ => none
  | '%' :: _ => none
  | '+' :: rest => (unescapeChars rest).map (fun r => ' ' :: r)
  | c :: rest => (unescapeChars rest).map (fun r => c :: r)

/-- Model of Go `net/url.QueryUnescape` on strings. -/
def queryUnescape (s : String) : Option String :=
  (unescapeChars s.toList).map List.asString

/-- Pure percent-decoding (RFC 3986 path-segment decoding): `%HH`
decodes to the byte `HH`, every other character — including `+` — is
literal.  This follows the spec sentence "Spell/item names in path
segments are percent-decoded server-side" and is compared against the
source's `url.QueryUnescape` behaviour. -/
def percentDecodeChars : List Char → Option (List Char)
  | [] => some []
  | '%' :: a :: b :: rest =>
      match hexDigit a, hexDigit b, percentDecodeChars rest with
      | some ha, some hb, some r => some (Char.ofNat (ha * 16 + hb) :: r)
      | _, _, _ => none
  | '%' :: _ => none
  | c :: rest => (percentDecodeChars rest).map (fun r => c :: r)

/-- Pure percent-decoding on strings (spec-side definition for the
refinement comparison in claim C7). -/
def percentDecode (s : String) : Option String :=
  (percentDecodeChars s.toList).map List.asString

/-! ## Data model

Modelled from the spec (§3): the `draco/models` package itself is not
among the provided sources, only its use sites, so the record shapes
follow the spec's data model section and the fields the handlers
manipulate (`ID`, `PlayerUsername`, `CharacterID`, `DungeonMaster`, ...). -/

/-- Player record: unique username, stored password hash, display name. -/
structure Player where
  username : String
  passwordHash : String
  displayName : String
  deriving DecidableEq, Repr

/-- Character record: numeric ID, owning player's username, attributes. -/
structure Character where
  id : Int
  playerUsername : String
  name : String
  charClass : String
  deriving DecidableEq, Repr

/-- Spell record, keyed by (character ID, spell name); `school` is used
by the count-per-school aggregate. -/
structure Spell where
  characterID : Int
  name : String
  school : String
  deriving DecidableEq, Repr

/-- Item record, keyed by (character ID, item name); `weight` feeds the
item-stats aggregate. -/
structure Item where
  characterID : Int
  name : String
  weight : Int
  deriving DecidableEq, Repr

/-- Campaign record: numeric ID, name, current location, free-text
state, dungeon-master username. -/
structure Campaign where
  id : Int
  name : String
  currentLocation : String
  state : String
  dungeonMaster : String
  deriving DecidableEq, Repr

/-- Aggregate result of `ItemModel.GetItemStats`. -/
structure ItemStats where
  count : Nat
  totalWeight : Int
  deriving DecidableEq, Repr

/-- The relational store: one list per table plus the `BelongsTo`
many-to-many relation `(campaignID, characterID)` and the id sequences
backing `RETURNING id`. -/
structure Store where
  players : List Player
  characters : List Character
  spells : List Spell
  items : List Item
  campaigns : List Campaign
  belongsTo : List (Int × Int)
  nextCharacterID : Int
  nextCampaignID : Int
  deriving DecidableEq, Repr

/-- Repository error taxonomy the handlers observe: `models.ErrNoRecord`
(distinguishable missing entity) versus any other persistence failure. -/
inductive DBErr
  | noRecord
  | storage
  deriving DecidableEq, Repr

/-! ## Repositories

`CampaignModel.Insert`/`Get` appear in the provided sources; the other
repository methods are declared only through their call sites, so they
are modelled from the spec (§4.2, §4.3).  Every operation fails with
`DBErr.storage` when the request's generic persistence fault `fault` is
set. -/

/-- First player record with the given username. -/
def playersFind (store : Store) (u : String) : Option Player :=
  store.players.find? (fun p => p.username == u)

/-- Modelled from the spec: `register` stores a one-way hash of the
password and fails if the username already exists (duplicate key,
surfaced as a generic error per §7). -/
def playersInsert (h : String → String) (store : Store) (u p n : String)
    (fault : Bool) : Except DBErr Store :=
  if fault then .error .storage
  else if (playersFind store u).isSome then .error .storage
  else .ok { store with players := store.players ++ [⟨u, h p, n⟩] }

/-- Modelled from the spec: `authenticate` recomputes the hash and
compares; it fails on a missing user or on a mismatch, without revealing
which. -/
def playersAuthenticate (h : String → String) (store : Store) (u p : String)
    (fault : Bool) : Except DBErr String :=
  if fault then .error .storage
  else match playersFind store u with
    | none => .error .noRecord
    | some pl => if pl.passwordHash == h p then .ok pl.username else .error .noRecord

/-- Modelled from the spec: fetch a player record by username. -/
def playersGet (store : Store) (u : String) (fault : Bool) : Except DBErr Player :=
  if fault then .error .storage
  else match playersFind store u with
    | none => .error .noRecord
    | some pl => .ok pl

/-- Modelled from the spec: `updatePassword` overwrites the stored hash
of the given username (an SQL UPDATE touching no other row). -/
def playersUpdatePassword (h : String → String) (store : Store) (u np : String)
    (fault : Bool) : Except DBErr Store :=
  if fault then .error .storage
  else
    let updated := store.players.map (fun p =>
      if p.username == u then { p with passwordHash := h np } else p)
    .ok { store with players := updated }

/-- Modelled from the spec: `delete` removes the player record of the
given username (an SQL DELETE touching no other row). -/
def playersDelete (store : Store) (u : String) (fault : Bool) : Except DBErr Store :=
  if fault then .error .storage
  else .ok { store with players := store.players.filter (fun p => !(p.username == u)) }

/-- Modelled from the spec: character insert returns the fresh id from
the id sequence and records the given record under that id. -/
def charactersInsert (store : Store) (c : Character) (fault : Bool) :
    Except DBErr (Int × Store) :=
  if fault then .error .storage
  else .ok (store.nextCharacterID,
    { store with
        characters := store.characters ++ [{ c with id := store.nextCharacterID }],
        nextCharacterID := store.nextCharacterID + 1 })

/-- Modelled from the spec: character lookup by id, `NotFound` when the
row is missing. -/
def charactersGet (store : Store) (cid : Int) (fault : Bool) : Except DBErr Character :=
  if fault then .error .storage
  else match store.characters.find? (fun c => c.id == cid) with
    | none => .error .noRecord
    | some c => .ok c

/-- Modelled from the spec: all characters owned by a username. -/
def charactersGetAllUser (store : Store) (u : String) (fault : Bool) :
    Except DBErr (List Character) :=
  if fault then .error .storage
  else .ok (store.characters.filter (fun c => c.playerUsername == u))

/-- Modelled from the spec: character update replaces the row whose id
matches the record's id. -/
def charactersUpdate (store : Store) (c : Character) (fault : Bool) : Except DBErr Store :=
  if fault then .error .storage
  else .ok { store with characters :=
    store.characters.map (fun ch => if ch.id == c.id then c else ch) }

/-- Modelled from the spec: character delete removes the row with the
given id. -/
def charactersDelete (store : Store) (cid : Int) (fault : Bool) : Except DBErr Store :=
  if fault then .error .storage
  else .ok { store with characters := store.characters.filter (fun c => !(c.id == cid)) }

/-- First spell of the character with the given name. -/
def spellsFind (store : Store) (cid : Int) (n : String) : Option Spell :=
  store.spells.find? (fun s => s.characterID == cid && s.name == n)

/-- Modelled from the spec: spell insert; the (characterID, name) key is
unique per character, a duplicate is a generic store error (§7). -/
def spellsInsert (store : Store) (s : Spell) (fault : Bool) : Except DBErr Store :=
  if fault then .error .storage
  else if (spellsFind store s.characterID s.name).isSome then .error .storage
  else .ok { store with spells := store.spells ++ [s] }

/-- Modelled from the spec: spell lookup by (characterID, name). -/
def spellsGet (store : Store) (cid : Int) (n : String) (fault : Bool) : Except DBErr Spell :=
  if fault then .error .storage
  else match spellsFind store cid n with
    | none => .error .noRecord
    | some s => .ok s

/-- Modelled from the spec: spell delete by (characterID, name),
`NotFound` when the row is missing (the handler distinguishes it). -/
def spellsDelete (store : Store) (cid : Int) (n : String) (fault : Bool) :
    Except DBErr Store :=
  if fault then .error .storage
  else if (spellsFind store cid n).isSome then
    .ok { store with spells :=
      store.spells.filter (fun s => !(s.characterID == cid && s.name == n)) }
  else .error .noRecord

/-- Modelled from the spec: all spells of a character. -/
def spellsGetAllCharacter (store : Store) (cid : Int) (fault : Bool) :
    Except DBErr (List Spell) :=
  if fault then .error .storage
  else .ok (store.spells.filter (fun s => s.characterID == cid))

/-- Distinct values in order of first appearance. -/
def distinctStrings (l : List String) : List String :=
  l.foldl (fun acc s => if s ∈ acc then acc else acc ++ [s]) []

/-- Modelled from the spec: group a character's spells by school and
return the count per school. -/
def spellsCountPerSchool (store : Store) (cid : Int) (fault : Bool) :
    Except DBErr (List (String × Nat)) :=
  if fault then .error .storage
  else
    let mine := store.spells.filter (fun s => s.characterID == cid)
    .ok ((distinctStrings (mine.map (fun s => s.school))).map
      (fun sc => (sc, (mine.filter (fun s => s.school == sc)).length)))

/-- First item of the character with the given name. -/
def itemsFind (store : Store) (cid : Int) (n : String) : Option Item :=
  store.items.find? (fun i => i.characterID == cid && i.name == n)

/-- Modelled from the spec: item insert, unique per (characterID, name). -/
def itemsInsert (store : Store) (i : Item) (fault : Bool) : Except DBErr Store :=
  if fault then .error .storage
  else if (itemsFind store i.characterID i.name).isSome then .error .storage
  else .ok { store with items := store.items ++ [i] }

/-- Modelled from the spec: item lookup by (characterID, name). -/
def itemsGet (store : Store) (cid : Int) (n : String) (fault : Bool) : Except DBErr Item :=
  if fault then .error .storage
  else match itemsFind store cid n with
    | none => .error .noRecord
    | some i => .ok i

/-- Modelled from the spec: item delete by (characterID, name),
`NotFound` when the row is missing. -/
def itemsDelete (store : Store) (cid : Int) (n : String) (fault : Bool) :
    Except DBErr Store :=
  if fault then .error .storage
  else if (itemsFind store cid n).isSome then
    .ok { store with items :=
      store.items.filter (fun i => !(i.characterID == cid && i.name == n)) }
  else .error .noRecord

/-- Modelled from the spec: all items of a character. -/
def itemsGetAllCharacter (store : Store) (cid : Int) (fault : Bool) :
    Except DBErr (List Item) :=
  if fault then .error .storage
  else .ok (store.items.filter (fun i => i.characterID == cid))

/-- Modelled from the spec: summary statistics over a character's items
(count and weight total). -/
def itemsGetStats (store : Store) (cid : Int) (fault : Bool) : Except DBErr ItemStats :=
  if fault then .error .storage
  else
    let mine := store.items.filter (fun i => i.characterID == cid)
    .ok ⟨mine.length, (mine.map (fun i => i.weight)).sum⟩

/-- Modelled from the spec: the two-argument `CampaignModel.Insert`
called by `createCampaign` (absent from the provided sources, which only
contain a superseded one-argument version).  Per §4.3/§5 it runs in a
single transaction: the campaign row is inserted with a fresh id, then
one `BelongsTo` link per requested character id; a failure of any link
insert (here: a foreign-key violation, the referenced character does not
exist) rolls the whole transaction back, leaving the store unchanged. -/
def campaignsInsert (store : Store) (c : Campaign) (charIDs : List Int)
    (fault : Bool) : Except DBErr (Int × Store) :=
  if fault then .error .storage
  else if charIDs.all (fun cid => store.characters.any (fun ch => ch.id == cid)) then
    .ok (store.nextCampaignID,
      { store with
          campaigns := store.campaigns ++ [{ c with id := store.nextCampaignID }],
          belongsTo := store.belongsTo ++ charIDs.map (fun cid => (store.nextCampaignID, cid)),
          nextCampaignID := store.nextCampaignID + 1 })
  else .error .storage

/-- Modelled from the spec: campaign delete by id, removing the row and
its participation links. -/
def campaignsDelete (store : Store) (cid : Int) (fault : Bool) : Except DBErr Store :=
  if fault then .error .storage
  else .ok { store with
    campaigns := store.campaigns.filter (fun c => !(c.id == cid)),
    belongsTo := store.belongsTo.filter (fun b => !(b.1 == cid)) }

/-- Modelled from the spec: campaign update writes only the free-text
state and the current location of the row with the given id (the
`updateCampaign` handler passes exactly these two fields). -/
def campaignsUpdate (store : Store) (cid : Int) (st loc : String) (fault : Bool) :
    Except DBErr Store :=
  if fault then .error .storage
  else
    let updated := store.campaigns.map (fun c =>
      if c.id == cid then { c with state := st, currentLocation := loc } else c)
    .ok { store with campaigns := updated }

/-- Modelled from the spec: all campaigns created by a dungeon master. -/
def campaignsGetPlayersCreated (store : Store) (dm : String) (fault : Bool) :
    Except DBErr (List Campaign) :=
  if fault then .error .storage
  else .ok (store.campaigns.filter (fun c => c.dungeonMaster == dm))

/-- Modelled from the spec: all campaigns a character participates in. -/
def campaignsGetAllCharacter (store : Store) (cid : Int) (fault : Bool) :
    Except DBErr (List Campaign) :=
  if fault then .error .storage
  else .ok (store.campaigns.filter (fun c =>
    store.belongsTo.any (fun b => b.1 == c.id && b.2 == cid)))

/-- Modelled from the spec: usernames of players whose characters
participated in every campaign created by the dungeon master; the empty
set when the dungeon master has zero campaigns. -/
def campaignsGetPlayersAttendedAll (store : Store) (dm : String) (fault : Bool) :
    Except DBErr (List String) :=
  if fault then .error .storage
  else
    let dmCamps := store.campaigns.filter (fun c => c.dungeonMaster == dm)
    if dmCamps.isEmpty then .ok []
    else .ok ((store.players.filter (fun p =>
      dmCamps.all (fun c => store.characters.any (fun ch =>
        ch.playerUsername == p.username &&
        store.belongsTo.any (fun b => b.1 == c.id && b.2 == ch.id))))).map
      (fun p => p.username))

/-- Modelled from the spec: global summary stats (`GET /stat`). -/
def statsGetAll (store : Store) (fault : Bool) : Except DBErr (Nat × Nat × Nat) :=
  if fault then .error .storage
  else .ok (store.players.length, store.characters.length, store.campaigns.length)

/-! ## Response envelope and handler inputs -/

/-- JSON payloads the handlers place in the envelope's `data` field. -/
inductive JsonData
  | player (p : Player)
  | loginData (username token : String)
  | character (c : Character)
  | characters (cs : List Character)
  | resourceURI (uri : String)
  | spell (s : Spell)
  | spells (l : List Spell)
  | item (i : Item)
  | items (l : List Item)
  | campaigns (l : List Campaign)
  | usernames (l : List String)
  | spellCounts (l : List (String × Nat))
  | itemStats (st : ItemStats)
  | stats (players characters campaigns : Nat)
  deriving DecidableEq, Repr

/-- The response envelope every call of `sendJSONResponse` produces:
an HTTP status plus `{category, message, data}`. -/
structure Response where
  status : Nat
  category : String
  message : String
  data : Option JsonData
  deriving DecidableEq, Repr

/-- Model of `sendJSONResponse`: build and send the envelope.  A
handler path that never calls it (the bare `return nil` paths) yields
`none` instead: the request completes without a response body. -/
def sendJSONResponse (status : Nat) (category message : String)
    (data : Option JsonData) : Option Response :=
  some { status := status, category := category, message := message, data := data }

/-- Modelled from the spec: the token service issues a signed credential
embedding the username as subject.  The signature itself is outside the
model; a signing failure of the current request is the explicit
`jwtFault` input flag. -/
def createJWT (u : String) : String := "jwt:" ++ u

/-- Union of all request-body shapes the handlers bind; each handler
reads only the fields of its own request type. -/
structure RequestBody where
  username : String
  password : String
  name : String
  newPassword : String
  confirmation : String
  character : Character
  spell : Spell
  item : Item
  campaignInfo : Campaign
  characterIds : List Int
  state : String
  location : String
  deriving DecidableEq, Repr

/-- Everything a handler observes about the incoming request:
`tokenUsername` is what `getUsernameFromToken` returns (the validated
token's subject, `""` when absent), the `*Param` fields are the raw path
parameters, `bindOk` is whether `c.Bind` succeeds, `jwtFault` whether
JWT signing fails, and `dbFault` whether the repository calls of this
request fail with a generic (non-`NotFound`) persistence error. -/
structure HandlerInput where
  tokenUsername : String
  idParam : String
  nameParam : String
  usernameParam : String
  bindOk : Bool
  jwtFault : Bool
  dbFault : Bool
  body : RequestBody
  deriving DecidableEq, Repr

/-! ## Request handlers (handlers.go)

Each Go handler `func (app *application) f(c echo.Context) error`
becomes `f : (String → String) → HandlerInput → Store → Option Response
× Store`; the first argument is the abstract password hash. -/

/-- Handler of `POST /login`. -/
def loginPlayer (h : String → String) (inp : HandlerInput) (store : Store) :
    Option Response × Store :=
  if !inp.bindOk then
    (sendJSONResponse 422 "Player login" "Could not process request" none, store)
  else
    match playersAuthenticate h store inp.body.username inp.body.password inp.dbFault with
    | .error _ => (sendJSONResponse 401 "Player login" "Login failed" none, store)
    | .ok username =>
      if inp.jwtFault then
        (sendJSONResponse 401 "Player login" "Login failed" none, store)
      else
        (sendJSONResponse 200 "Player login" "Login successful"
          (some (.loginData username (createJWT username))), store)

/-- Handler of `POST /register`. -/
def createPlayer (h : String → String) (inp : HandlerInput) (store : Store) :
    Option Response × Store :=
  if !inp.bindOk then
    (sendJSONResponse 422 "Player creation" "Could not process request" none, store)
  else
    match playersInsert h store inp.body.username inp.body.password inp.body.name inp.dbFault with
    | .error _ => (sendJSONResponse 500 "Player creation" "Creation failed" none, store)
    | .ok store1 => (sendJSONResponse 201 "Player creation" "Creation successful" none, store1)

/-- Handler of `GET /auth/player/:username`. -/
def retrievePlayer (h : String → String) (inp : HandlerInput) (store : Store) :
    Option Response × Store :=
  if inp.tokenUsername != inp.usernameParam then
    (sendJSONResponse 401 "Player retrieval" "Access denied" none, store)
  else
    match playersGet store inp.usernameParam inp.dbFault with
    | .error _ => (sendJSONResponse 404 "Player retrieval" "Retrieval failed" none, store)
    | .ok p => (sendJSONResponse 200 "Player retrieval" "Retrieval successful"
        (some (.player p)), store)

/-- Handler of `PUT /auth/player/me/password`.  Note the success path
returns without sending a response. -/
def changePlayerPassword (h : String → String) (inp : HandlerInput) (store : Store) :
    Option Response × Store :=
  if trimSpace inp.tokenUsername == "" then
    (sendJSONResponse 401 "Change player password" "Access denied" none, store)
  else if !inp.bindOk then
    (sendJSONResponse 422 "Change player password" "Could not process request" none, store)
  else
    let np := trimSpace inp.body.newPassword
    let cf := trimSpace inp.body.confirmation
    if np == "" || cf == "" then
      (sendJSONResponse 422 "Change player password" "New password must be specified" none, store)
    else if np != cf then
      (sendJSONResponse 400 "Change player password"
        "New password and confirmation do not match" none, store)
    else
      match playersUpdatePassword h store inp.tokenUsername np inp.dbFault with
      | .error _ =>
        (sendJSONResponse 500 "Change player password" "Password failed to update" none, store)
      | .ok store1 => (none, store1)

/-- Handler of `DELETE /auth/player/me`.  Note the success path returns
without sending a response. -/
def deletePlayerSelf (h : String → String) (inp : HandlerInput) (store : Store) :
    Option Response × Store :=
  if trimSpace inp.tokenUsername == "" then
    (sendJSONResponse 401 "Delete player account" "Access denied" none, store)
  else
    match playersDelete store inp.tokenUsername inp.dbFault with
    | .error _ => (sendJSONResponse 500 "Delete player account" "Deletion failed" none, store)
    | .ok store1 => (none, store1)

/-- Handler of `POST /auth/character`: the owner recorded on the new
character is the token subject, overwriting any client-supplied value. -/
def createCharacter (h : String → String) (inp : HandlerInput) (store : Store) :
    Option Response × Store :=
  if !inp.bindOk then
    (sendJSONResponse 422 "Character creation" "Could not process request" none, store)
  else if trimSpace inp.tokenUsername == "" then
    (sendJSONResponse 401 "Character creation" "Creation failed" none, store)
  else
    let req := { inp.body.character with playerUsername := inp.tokenUsername }
    match charactersInsert store req inp.dbFault with
    | .error _ => (sendJSONResponse 500 "Character creation" "Creation failed" none, store)
    | .ok (cid, store1) =>
      (sendJSONResponse 201 "Character creation" "Creation successful"
        (some (.resourceURI ("/characters/" ++ toString cid))), store1)

/-- Handler of `GET /character/:id` and `GET /auth/character/:id` (the
same function is registered on both routes). -/
def retrieveCharacter (h : String → String) (inp : HandlerInput) (store : Store) :
    Option Response × Store :=
  match atoi inp.idParam with
  | none => (sendJSONResponse 422 "Character retrieval" "Retrieval failed" none, store)
  | some cid =>
    match charactersGet store cid inp.dbFault with
    | .error .noRecord =>
      (sendJSONResponse 404 "Character retrieval" "Retrieval failed" none, store)
    | .error .storage =>
      (sendJSONResponse 500 "Character retrieval" "Retrieval failed" none, store)
    | .ok c => (sendJSONResponse 200 "Character retrieval" "Retrieval successful"
        (some (.character c)), store)

/-- Handler of `GET /auth/character/me`. -/
def retrieveUserCharacters (h : String → String) (inp : HandlerInput) (store : Store) :
    Option Response × Store :=
  if trimSpace inp.tokenUsername == "" then
    (sendJSONResponse 401 "Retrieve all user characters" "Retrieval failed" none, store)
  else
    match charactersGetAllUser store inp.tokenUsername inp.dbFault with
    | .error .noRecord =>
      (sendJSONResponse 404 "Retrieve all user characters" "Retrieval failed" none, store)
    | .error .storage =>
      (sendJSONResponse 500 "Retrieve all user characters" "Retrieval failed" none, store)
    | .ok cs => (sendJSONResponse 200 "Retrieve all user characters" "Retrieval successful"
        (some (.characters cs)), store)

/-- `updateCharacter` handler (present in the source but registered on
no route). -/
def updateCharacter (h : String → String) (inp : HandlerInput) (store : Store) :
    Option Response × Store :=
  if !inp.bindOk then
    (sendJSONResponse 422 "Character update" "Could not process request" none, store)
  else
    match atoi inp.idParam with
    | none => (sendJSONResponse 422 "Character update" "Could not process request" none, store)
    | some cid =>
      let req := { inp.body.character with id := cid }
      match charactersUpdate store req inp.dbFault with
      | .error _ => (sendJSONResponse 500 "Character update" "update failed" none, store)
      | .ok store1 =>
        (sendJSONResponse 200 "Character update" "Update successful" none, store1)

/-- Handler of `DELETE /auth/character/:id`. -/
def deleteCharacter (h : String → String) (inp : HandlerInput) (store : Store) :
    Option Response × Store :=
  match atoi inp.idParam with
  | none => (sendJSONResponse 422 "Character deletion" "Could not process request" none, store)
  | some cid =>
    match charactersDelete store cid inp.dbFault with
    | .error _ => (sendJSONResponse 500 "Character deletion" "Deletion failed" none, store)
    | .ok store1 => (sendJSONResponse 200 "Character deletion" "Deletion successful" none, store1)

/-- Handler of `POST /auth/character/:id/spell`. -/
def createSpell (h : String → String) (inp : HandlerInput) (store : Store) :
    Option Response × Store :=
  match atoi inp.idParam with
  | none => (sendJSONResponse 422 "Spell creation" "Could not process request" none, store)
  | some cid =>
    if !inp.bindOk then
      (sendJSONResponse 422 "Spell creation" "Could not process request" none, store)
    else
      let req := { inp.body.spell with characterID := cid }
      match spellsInsert store req inp.dbFault with
      | .error _ => (sendJSONResponse 500 "Spell creation" "Creation failed" none, store)
      | .ok store1 => (sendJSONResponse 201 "Spell creation" "Creation successful" none, store1)

/-- Handler of `GET /auth/character/:id/spell/:name`: the name segment
passes through `url.QueryUnescape`; every repository error maps to 404. -/
def retrieveSpell (h : String → String) (inp : HandlerInput) (store : Store) :
    Option Response × Store :=
  match atoi inp.idParam with
  | none => (sendJSONResponse 422 "Spell retrieval" "Retrieval failed" none, store)
  | some cid =>
    match queryUnescape inp.nameParam with
    | none => (sendJSONResponse 422 "Spell retrieval" "Retrieval failed" none, store)
    | some dname =>
      match spellsGet store cid dname inp.dbFault with
      | .error _ => (sendJSONResponse 404 "Spell retrieval" "Retrieval failed" none, store)
      | .ok s => (sendJSONResponse 200 "Spell retrieval" "Retrieval successful"
          (some (.spell s)), store)

/-- Handler of `DELETE /auth/character/:id/spell/:name`. -/
def deleteSpell (h : String → String) (inp : HandlerInput) (store : Store) :
    Option Response × Store :=
  match atoi inp.idParam with
  | none => (sendJSONResponse 422 "Spell deletion" "Deletion failed" none, store)
  | some cid =>
    match queryUnescape inp.nameParam with
    | none => (sendJSONResponse 422 "Spell deletion" "Deletion failed" none, store)
    | some dname =>
      match spellsDelete store cid dname inp.dbFault with
      | .error .noRecord => (sendJSONResponse 404 "Spell deletion" "Deletion failed" none, store)
      | .error .storage => (sendJSONResponse 500 "Spell deletion" "Deletion failed" none, store)
      | .ok store1 => (sendJSONResponse 200 "Spell deletion" "Deletion successful" none, store1)

/-- Handler of `GET /auth/character/:id/spell`: every repository error
maps to 404. -/
def retrieveAllCharacterSpells (h : String → String) (inp : HandlerInput) (store : Store) :
    Option Response × Store :=
  match atoi inp.idParam with
  | none => (sendJSONResponse 422 "Retrieve all character spells" "Retrieval failed" none, store)
  | some cid =>
    match spellsGetAllCharacter store cid inp.dbFault with
    | .error _ =>
      (sendJSONResponse 404 "Retrieve all character spells" "Retrieval failed" none, store)
    | .ok l => (sendJSONResponse 200 "Retrieve all character spells" "Retrieval successful"
        (some (.spells l)), store)

/-- Handler of `GET /auth/character/:id/spell/count-per-school` (the
error branch's category string carries the source's stray "test"). -/
def getCountSpellsPerSchool (h : String → String) (inp : HandlerInput) (store : Store) :
    Option Response × Store :=
  match atoi inp.idParam with
  | none => (sendJSONResponse 422 "Retrieve count character spells per school"
      "Retrieval failed" none, store)
  | some cid =>
    match spellsCountPerSchool store cid inp.dbFault with
    | .error _ => (sendJSONResponse 500 "Retrieve count character spells per school test"
        "Retrieval failed" none, store)
    | .ok l => (sendJSONResponse 200 "Retrieve count character spells per school"
        "Retrieval successful" (some (.spellCounts l)), store)

/-- Handler of `POST /auth/character/:id/item`. -/
def createItem (h : String → String) (inp : HandlerInput) (store : Store) :
    Option Response × Store :=
  match atoi inp.idParam with
  | none => (sendJSONResponse 422 "Item creation" "Could not process request" none, store)
  | some cid =>
    if !inp.bindOk then
      (sendJSONResponse 422 "Item creation" "Could not process request" none, store)
    else
      let req := { inp.body.item with characterID := cid }
      match itemsInsert store req inp.dbFault with
      | .error _ => (sendJSONResponse 500 "Item creation" "Creation failed" none, store)
      | .ok store1 => (sendJSONResponse 201 "Item creation" "Creation successful" none, store1)

/-- Handler of `GET /auth/character/:id/item/:name`. -/
def retrieveItem (h : String → String) (inp : HandlerInput) (store : Store) :
    Option Response × Store :=
  match atoi inp.idParam with
  | none => (sendJSONResponse 422 "Item retrieval" "Retrieval failed" none, store)
  | some cid =>
    match queryUnescape inp.nameParam with
    | none => (sendJSONResponse 422 "Item retrieval" "Retrieval failed" none, store)
    | some dname =>
      match itemsGet store cid dname inp.dbFault with
      | .error .noRecord => (sendJSONResponse 404 "Item retrieval" "Retrieval failed" none, store)
      | .error .storage => (sendJSONResponse 500 "Item retrieval" "Retrieval failed" none, store)
      | .ok i => (sendJSONResponse 200 "Item retrieval" "Retrieval successful"
          (some (.item i)), store)

/-- Handler of `GET /auth/character/:id/item`: every repository error
maps to 404. -/
def retrieveAllCharacterItems (h : String → String) (inp : HandlerInput) (store : Store) :
    Option Response × Store :=
  match atoi inp.idParam with
  | none => (sendJSONResponse 422 "Retrieve all character items" "Retrieval failed" none, store)
  | some cid =>
    match itemsGetAllCharacter store cid inp.dbFault with
    | .error _ =>
      (sendJSONResponse 404 "Retrieve all character items" "Retrieval failed" none, store)
    | .ok l => (sendJSONResponse 200 "Retrieve all character items" "Retrieval successful"
        (some (.items l)), store)

/-- Handler of `DELETE /auth/character/:id/item/:name`. -/
def deleteItem (h : String → String) (inp : HandlerInput) (store : Store) :
    Option Response × Store :=
  match atoi inp.idParam with
  | none => (sendJSONResponse 422 "Item deletion" "Deletion failed" none, store)
  | some cid =>
    match queryUnescape inp.nameParam with
    | none => (sendJSONResponse 422 "Item deletion" "Deletion failed" none, store)
    | some dname =>
      match itemsDelete store cid dname inp.dbFault with
      | .error .noRecord => (sendJSONResponse 404 "Item deletion" "Deletion failed" none, store)
      | .error .storage => (sendJSONResponse 500 "Item deletion" "Deletion failed" none, store)
      | .ok store1 => (sendJSONResponse 200 "Item deletion" "Deletion successful" none, store1)

/-- Handler of `GET /auth/character/:id/item/stats`. -/
def getItemStats (h : String → String) (inp : HandlerInput) (store : Store) :
    Option Response × Store :=
  match atoi inp.idParam with
  | none => (sendJSONResponse 422 "Retrieve character item stats" "Retrieval failed" none, store)
  | some cid =>
    match itemsGetStats store cid inp.dbFault with
    | .error _ =>
      (sendJSONResponse 500 "Retrieve character item stats" "Retrieval failed" none, store)
    | .ok st => (sendJSONResponse 200 "Retrieve character item stats" "Retrieval successful"
        (some (.itemStats st)), store)

/-- Handler of `POST /auth/campaign`: the recorded dungeon master is
the token subject, overwriting any client-supplied value; the insert is
the transactional two-step operation. -/
def createCampaign (h : String → String) (inp : HandlerInput) (store : Store) :
    Option Response × Store :=
  if !inp.bindOk then
    (sendJSONResponse 422 "Campaign creation" "Could not process request" none, store)
  else if trimSpace inp.tokenUsername == "" then
    (sendJSONResponse 401 "Campaign creation" "Creation failed" none, store)
  else
    let ci := { inp.body.campaignInfo with dungeonMaster := inp.tokenUsername }
    match campaignsInsert store ci inp.body.characterIds inp.dbFault with
    | .error _ => (sendJSONResponse 500 "Campaign creation" "Creation failed" none, store)
    | .ok (cid, store1) =>
      (sendJSONResponse 201 "Campaign creation" "Creation successful"
        (some (.resourceURI ("/campaign/" ++ toString cid))), store1)

/-- `updateCampaign` handler (present in the source but registered on
no route); it forwards only state and location to the repository. -/
def updateCampaign (h : String → String) (inp : HandlerInput) (store : Store) :
    Option Response × Store :=
  if !inp.bindOk then
    (sendJSONResponse 422 "Campaign modification" "Could not process request" none, store)
  else
    match atoi inp.idParam with
    | none => (sendJSONResponse 422 "Campaign modification" "Modification failed" none, store)
    | some cid =>
      match campaignsUpdate store cid inp.body.state inp.body.location inp.dbFault with
      | .error _ =>
        (sendJSONResponse 500 "Campaign modification" "Modification failed" none, store)
      | .ok store1 =>
        (sendJSONResponse 200 "Campaign modification" "Modification successful" none, store1)

/-- Handler of `DELETE /auth/campaign/:id`. -/
def deleteCampaign (h : String → String) (inp : HandlerInput) (store : Store) :
    Option Response × Store :=
  match atoi inp.idParam with
  | none => (sendJSONResponse 422 "Campaign deletion" "Deletion failed" none, store)
  | some cid =>
    match campaignsDelete store cid inp.dbFault with
    | .error _ => (sendJSONResponse 500 "Campaign deletion" "Deletion failed" none, store)
    | .ok store1 => (sendJSONResponse 200 "Campaign deletion" "Deletion successful" none, store1)

/-- Handler of `GET /auth/campaign/me`. -/
def getsPlayersCreatedCampaigns (h : String → String) (inp : HandlerInput) (store : Store) :
    Option Response × Store :=
  if trimSpace inp.tokenUsername == "" then
    (sendJSONResponse 401 "Retrieve all player\x27s started campaigns"
      "Retrieval failed" none, store)
  else
    match campaignsGetPlayersCreated store inp.tokenUsername inp.dbFault with
    | .error _ => (sendJSONResponse 500 "Retrieve all player\x27s started campaigns"
        "Retrieval failed" none, store)
    | .ok l => (sendJSONResponse 200 "Retrieve all player\x27s started campaigns"
        "Retrieval successful" (some (.campaigns l)), store)

/-- Handler of `GET /auth/character/:id/campaign`. -/
def getAllCharacterCampaigns (h : String → String) (inp : HandlerInput) (store : Store) :
    Option Response × Store :=
  match atoi inp.idParam with
  | none =>
    (sendJSONResponse 422 "Retrieve all character campaigns" "Retrieval failed" none, store)
  | some cid =>
    match campaignsGetAllCharacter store cid inp.dbFault with
    | .error _ =>
      (sendJSONResponse 500 "Retrieve all character campaigns" "Retrieval failed" none, store)
    | .ok l => (sendJSONResponse 200 "Retrieve all character campaigns" "Retrieval successful"
        (some (.campaigns l)), store)

/-- Handler of `GET /auth/campaign/me/stats/player-attendance`: a
repository error maps to 401 (the error branch's category string also
carries the source's doubled space). -/
def getPlayersAttendedAll (h : String → String) (inp : HandlerInput) (store : Store) :
    Option Response × Store :=
  if trimSpace inp.tokenUsername == "" then
    (sendJSONResponse 401
      "Campaign stats - Players with perfect attendance in requestor\x27s created campaigns"
      "Access denied" none, store)
  else
    match campaignsGetPlayersAttendedAll store inp.tokenUsername inp.dbFault with
    | .error _ => (sendJSONResponse 401
        "Campaign stats -  Players with perfect attendance in requestor\x27s created campaigns"
        "Retrieval failed" none, store)
    | .ok l => (sendJSONResponse 200
        "Campaign stats - Players with perfect attendance in requestor\x27s created campaigns"
        "Retrieval successful" (some (.usernames l)), store)

/-- Handler of `GET /stat`. -/
def retrieveAllStats (h : String → String) (inp : HandlerInput) (store : Store) :
    Option Response × Store :=
  match statsGetAll store inp.dbFault with
  | .error _ => (sendJSONResponse 500 "Retrieve all stats" "Retrieval failed" none, store)
  | .ok st => (sendJSONResponse 200 "Retrieve all stats" "Retrieval successful"
      (some (.stats st.1 st.2.1 st.2.2)), store)

/-! ## Route table (routes.go) -/

/-- Names of the handler functions a route can dispatch to. -/
inductive HandlerId
  | loginPlayer
  | createPlayer
  | retrievePlayer
  | changePlayerPassword
  | deletePlayerSelf
  | createCharacter
  | retrieveCharacter
  | retrieveUserCharacters
  | updateCharacter
  | deleteCharacter
  | createSpell
  | retrieveSpell
  | deleteSpell
  | retrieveAllCharacterSpells
  | getCountSpellsPerSchool
  | createItem
  | retrieveItem
  | retrieveAllCharacterItems
  | deleteItem
  | getItemStats
  | createCampaign
  | updateCampaign
  | deleteCampaign
  | getsPlayersCreatedCampaigns
  | getAllCharacterCampaigns
  | getPlayersAttendedAll
  | retrieveAllStats
  deriving DecidableEq, Repr

/-- Dispatch a handler name to its function. -/
def runHandler (h : String → String) :
    HandlerId → HandlerInput → Store → Option Response × Store
  | .loginPlayer => loginPlayer h
  | .createPlayer => createPlayer h
  | .retrievePlayer => retrievePlayer h
  | .changePlayerPassword => changePlayerPassword h
  | .deletePlayerSelf => deletePlayerSelf h
  | .createCharacter => createCharacter h
  | .retrieveCharacter => retrieveCharacter h
  | .retrieveUserCharacters => retrieveUserCharacters h
  | .updateCharacter => updateCharacter h
  | .deleteCharacter => deleteCharacter h
  | .createSpell => createSpell h
  | .retrieveSpell => retrieveSpell h
  | .deleteSpell => deleteSpell h
  | .retrieveAllCharacterSpells => retrieveAllCharacterSpells h
  | .getCountSpellsPerSchool => getCountSpellsPerSchool h
  | .createItem => createItem h
  | .retrieveItem => retrieveItem h
  | .retrieveAllCharacterItems => retrieveAllCharacterItems h
  | .deleteItem => deleteItem h
  | .getItemStats => getItemStats h
  | .createCampaign => createCampaign h
  | .updateCampaign => updateCampaign h
  | .deleteCampaign => deleteCampaign h
  | .getsPlayersCreatedCampaigns => getsPlayersCreatedCampaigns h
  | .getAllCharacterCampaigns => getAllCharacterCampaigns h
  | .getPlayersAttendedAll => getPlayersAttendedAll h
  | .retrieveAllStats => retrieveAllStats h

/-- HTTP methods used by the route table. -/
inductive Method
  | GET
  | POST
  | PUT
  | DELETE
  deriving DecidableEq, Repr

/-- One registered route: method, path pattern, handler. -/
structure Route where
  method : Method
  path : String
  handler : HandlerId
  deriving DecidableEq, Repr

/-- The route table built by `registerRoutes` (routes.go).  Routes of
the `/auth` group carry the group prefix in their path and are exactly
the ones behind the JWT middleware gate. -/
def registerRoutes : List Route := [
  ⟨.POST, "/login", .loginPlayer⟩,
  ⟨.POST, "/register", .createPlayer⟩,
  ⟨.GET, "/character/:id", .retrieveCharacter⟩,
  ⟨.GET, "/stat", .retrieveAllStats⟩,
  ⟨.GET, "/auth/player/:username", .retrievePlayer⟩,
  ⟨.PUT, "/auth/player/me/password", .changePlayerPassword⟩,
  ⟨.DELETE, "/auth/player/me", .deletePlayerSelf⟩,
  ⟨.POST, "/auth/character", .createCharacter⟩,
  ⟨.GET, "/auth/character/me", .retrieveUserCharacters⟩,
  ⟨.GET, "/auth/character/:id", .retrieveCharacter⟩,
  ⟨.DELETE, "/auth/character/:id", .deleteCharacter⟩,
  ⟨.POST, "/auth/character/:id/spell", .createSpell⟩,
  ⟨.GET, "/auth/character/:id/spell/:name", .retrieveSpell⟩,
  ⟨.GET, "/auth/character/:id/spell", .retrieveAllCharacterSpells⟩,
  ⟨.DELETE, "/auth/character/:id/spell/:name", .deleteSpell⟩,
  ⟨.GET, "/auth/character/:id/spell/count-per-school", .getCountSpellsPerSchool⟩,
  ⟨.POST, "/auth/character/:id/item", .createItem⟩,
  ⟨.GET, "/auth/character/:id/item/:name", .retrieveItem⟩,
  ⟨.GET, "/auth/character/:id/item", .retrieveAllCharacterItems⟩,
  ⟨.DELETE, "/auth/character/:id/item/:name", .deleteItem⟩,
  ⟨.GET, "/auth/character/:id/item/stats", .getItemStats⟩,
  ⟨.POST, "/auth/campaign", .createCampaign⟩,
  ⟨.DELETE, "/auth/campaign/:id", .deleteCampaign⟩,
  ⟨.GET, "/auth/campaign/me/stats/player-attendance", .getPlayersAttendedAll⟩,
  ⟨.GET, "/auth/campaign/me", .getsPlayersCreatedCampaigns⟩,
  ⟨.GET, "/auth/character/:id/campaign", .getAllCharacterCampaigns⟩]

/-- Handlers reachable through some registered route. -/
def registeredHandlers : List HandlerId := registerRoutes.map (fun r => r.handler)

/-! ## Derived descriptions used by the claims -/

/-- Override every client-supplied identity field of a request at once:
the `:username` path parameter, the body's `username`, the body
character's owner and the body campaign's dungeon master. -/
def setClientIdentity (inp : HandlerInput) (a b c d : String) : HandlerInput :=
  { inp with
      usernameParam := a,
      body := { inp.body with
        username := b,
        character := { inp.body.character with playerUsername := c },
        campaignInfo := { inp.body.campaignInfo with dungeonMaster := d } } }

/-- The guards a request must pass before the handler's repository call
is reached (each case reads off the early returns of the handler). -/
def reachesRepo : HandlerId → HandlerInput → Bool
  | .loginPlayer, inp => inp.bindOk
  | .createPlayer, inp => inp.bindOk
  | .retrievePlayer, inp => inp.tokenUsername == inp.usernameParam
  | .changePlayerPassword, inp =>
      (trimSpace inp.tokenUsername != "") && inp.bindOk &&
      (trimSpace inp.body.newPassword != "") && (trimSpace inp.body.confirmation != "") &&
      (trimSpace inp.body.newPassword == trimSpace inp.body.confirmation)
  | .deletePlayerSelf, inp => trimSpace inp.tokenUsername != ""
  | .createCharacter, inp => inp.bindOk && (trimSpace inp.tokenUsername != "")
  | .retrieveCharacter, inp => (atoi inp.idParam).isSome
  | .retrieveUserCharacters, inp => trimSpace inp.tokenUsername != ""
  | .updateCharacter, inp => inp.bindOk && (atoi inp.idParam).isSome
  | .deleteCharacter, inp => (atoi inp.idParam).isSome
  | .createSpell, inp => (atoi inp.idParam).isSome && inp.bindOk
  | .retrieveSpell, inp => (atoi inp.idParam).isSome && (queryUnescape inp.nameParam).isSome
  | .deleteSpell, inp => (atoi inp.idParam).isSome && (queryUnescape inp.nameParam).isSome
  | .retrieveAllCharacterSpells, inp => (atoi inp.idParam).isSome
  | .getCountSpellsPerSchool, inp => (atoi inp.idParam).isSome
  | .createItem, inp => (atoi inp.idParam).isSome && inp.bindOk
  | .retrieveItem, inp => (atoi inp.idParam).isSome && (queryUnescape inp.nameParam).isSome
  | .retrieveAllCharacterItems, inp => (atoi inp.idParam).isSome
  | .deleteItem, inp => (atoi inp.idParam).isSome && (queryUnescape inp.nameParam).isSome
  | .getItemStats, inp => (atoi inp.idParam).isSome
  | .createCampaign, inp => inp.bindOk && (trimSpace inp.tokenUsername != "")
  | .updateCampaign, inp => inp.bindOk && (atoi inp.idParam).isSome
  | .deleteCampaign, inp => (atoi inp.idParam).isSome
  | .getsPlayersCreatedCampaigns, inp => trimSpace inp.tokenUsername != ""
  | .getAllCharacterCampaigns, inp => (atoi inp.idParam).isSome
  | .getPlayersAttendedAll, inp => trimSpace inp.tokenUsername != ""
  | .retrieveAllStats, _ => true

/-- The HTTP status each handler sends when its repository call fails
with a generic (non-`NotFound`) persistence error. -/
def faultStatus : HandlerId → Nat
  | .loginPlayer => 401
  | .retrievePlayer => 404
  | .retrieveSpell => 404
  | .retrieveAllCharacterSpells => 404
  | .retrieveAllCharacterItems => 404
  | .getPlayersAttendedAll => 401
  | _ => 500

/-! ## Concrete sample data for witnesses and counterexamples -/

/-- A sample request body. -/
def sampleBody : RequestBody := {
  username := "alice", password := "pw1", name := "Alice",
  newPassword := " pw2 ", confirmation := "pw2",
  character := ⟨0, "eve", "Conan", "barbarian"⟩,
  spell := ⟨0, "Fireball", "evocation"⟩,
  item := ⟨0, "Rope", 2⟩,
  campaignInfo := ⟨0, "Quest", "Town", "active", "eve"⟩,
  characterIds := [1],
  state := "paused", location := "Cave" }

/-- A sample well-formed authenticated request. -/
def sampleInput : HandlerInput := {
  tokenUsername := "alice", idParam := "1", nameParam := "Fireball",
  usernameParam := "alice", bindOk := true, jwtFault := false, dbFault := false,
  body := sampleBody }

/-- A sample store with two players, one character owned by alice, one
spell, one item and one campaign run by alice (hash modelled as the
identity function in the concrete statements below). -/
def sampleStore : Store := {
  players := [⟨"alice", "pw1", "Alice"⟩, ⟨"bob", "pwb", "Bob"⟩],
  characters := [⟨1, "alice", "Conan", "barbarian"⟩],
  spells := [⟨1, "Fireball", "evocation"⟩],
  items := [⟨1, "Rope", 2⟩],
  campaigns := [⟨1, "Quest", "Town", "active", "alice"⟩],
  belongsTo := [(1, 1)],
  nextCharacterID := 2, nextCampaignID := 2 }

/-- A store holding a spell whose name contains a literal plus sign. -/
def plusStore : Store :=
  { sampleStore with spells := [⟨1, "a+b", "evocation"⟩] }

/-- A request for the spell named `a+b`, sent in the raw path form
`a+b` (a well-formed percent-encoding of itself). -/
def plusInput : HandlerInput := { sampleInput with nameParam := "a+b" }

/-! ## Helper lemmas -/

/-- In a list of campaigns with pairwise-distinct ids, two members with
the same id are the same row. -/
lemma pairwise_ids_eq {l : List Campaign}
    (hp : l.Pairwise (fun a b => a.id ≠ b.id)) :
    ∀ a ∈ l, ∀ b ∈ l, a.id = b.id → a = b := by
  induction l with
  | nil => simp
  | cons x xs ih =>
    simp only [List.pairwise_cons] at hp
    intro a ha b hb hab
    rcases List.mem_cons.mp ha with ha1 | ha2
    · rcases List.mem_cons.mp hb with hb1 | hb2
      · rw [ha1, hb1]
      · rw [ha1] at hab ⊢
        exact absurd hab (hp.1 b hb2)
    · rcases List.mem_cons.mp hb with hb1 | hb2
      · rw [hb1] at hab ⊢
        exact absurd hab.symm (hp.1 a ha2)
      · exact ih hp.2 a ha2 b hb2 hab

/-! ## Claims -/

/-- C1: campaign creation with a list of character IDs is atomic.  For
every campaign-creation request that passes binding and the token gate,
if any participation-link insert fails (a generic persistence fault or a
requested character id with no matching character row), the handler
answers 500 and the store is returned exactly as it was: the campaign
row is rolled back with the links, so the operation never leaves a
campaign with zero linked characters. -/
theorem createCampaign_rolls_back_on_link_failure (h : String → String)
    (inp : HandlerInput) (store : Store)
    (hbind : inp.bindOk = true) (htok : trimSpace inp.tokenUsername ≠ "")
    (hfail : inp.dbFault = true ∨
      ∃ cid ∈ inp.body.characterIds, ∀ ch ∈ store.characters, ch.id ≠ cid) :
    runHandler h .createCampaign inp store =
      (sendJSONResponse 500 "Campaign creation" "Creation failed" none, store) := by
  simp only [runHandler, createCampaign, hbind]
  simp only [Bool.not_true, Bool.false_eq_true, if_false]
  rw [if_neg (by simp [htok])]
  rcases hfail with hdb | ⟨cid, hmem, hnone⟩
  · simp [campaignsInsert, hdb]
  · have hall : (inp.body.characterIds.all
        (fun cid => store.characters.any (fun ch => ch.id == cid))) = false := by
      rw [List.all_eq_false]
      refine ⟨cid, hmem, ?_⟩
      rw [Bool.not_eq_true, List.any_eq_false]
      intro ch hch
      simpa using hnone ch hch
    cases hdb : inp.dbFault
    · simp [campaignsInsert, hdb, hall]
    · simp [campaignsInsert, hdb]

/-- Witness for C1: a creation request linking the nonexistent
character 99 fails with 500 and leaves the sample store unchanged. -/
theorem createCampaign_rolls_back_on_link_failure_witness :
    runHandler (fun s => s) .createCampaign
      { sampleInput with body := { sampleBody with characterIds := [99] } } sampleStore =
      (sendJSONResponse 500 "Campaign creation" "Creation failed" none, sampleStore) :=
  createCampaign_rolls_back_on_link_failure (fun s => s) _ sampleStore (by decide) (by decide)
    (Or.inr ⟨99, by decide, by decide⟩)

/-- C2: for the protected mutating handlers (password change, account
deletion, character creation, campaign creation) the identity acted on
or stored as owner is exactly the validated token's subject: varying
every client-supplied identity field at once (the `:username` path
parameter, the body username, the body character's owner, the body
campaign's dungeon master) never changes the handler's outcome; the
password-change and account-deletion handlers touch no player record
other than the token subject's; every character or campaign row the
creation handlers add carries the token subject as owner. -/
theorem acting_identity_is_token_subject (h : String → String) (inp : HandlerInput)
    (store : Store) :
    (∀ hid : HandlerId,
      (hid = .changePlayerPassword ∨ hid = .deletePlayerSelf ∨
       hid = .createCharacter ∨ hid = .createCampaign) →
      ∀ a₁ b₁ c₁ d₁ a₂ b₂ c₂ d₂ : String,
        runHandler h hid (setClientIdentity inp a₁ b₁ c₁ d₁) store =
        runHandler h hid (setClientIdentity inp a₂ b₂ c₂ d₂) store)
    ∧ ((runHandler h .changePlayerPassword inp store).2.players = store.players ∨
       (runHandler h .changePlayerPassword inp store).2.players =
         store.players.map (fun p => if p.username == inp.tokenUsername then
           { p with passwordHash := h (trimSpace inp.body.newPassword) } else p))
    ∧ ((runHandler h .deletePlayerSelf inp store).2.players = store.players ∨
       (runHandler h .deletePlayerSelf inp store).2.players =
         store.players.filter (fun p => !(p.username == inp.tokenUsername)))
    ∧ (∀ p, p ∈ store.players → p.username ≠ inp.tokenUsername →
        p ∈ (runHandler h .changePlayerPassword inp store).2.players ∧
        p ∈ (runHandler h .deletePlayerSelf inp store).2.players)
    ∧ (∀ c, c ∈ (runHandler h .createCharacter inp store).2.characters →
        c ∈ store.characters ∨ c.playerUsername = inp.tokenUsername)
    ∧ (∀ c, c ∈ (runHandler h .createCampaign inp store).2.campaigns →
        c ∈ store.campaigns ∨ c.dungeonMaster = inp.tokenUsername) := by
  have hpw : (runHandler h .changePlayerPassword inp store).2.players = store.players ∨
      (runHandler h .changePlayerPassword inp store).2.players =
        store.players.map (fun p => if p.username == inp.tokenUsername then
          { p with passwordHash := h (trimSpace inp.body.newPassword) } else p) := by
    simp only [runHandler]
    unfold changePlayerPassword playersUpdatePassword
    repeat' split
    all_goals simp_all
    all_goals repeat' split
    all_goals simp_all
  have hdel : (runHandler h .deletePlayerSelf inp store).2.players = store.players ∨
      (runHandler h .deletePlayerSelf inp store).2.players =
        store.players.filter (fun p => !(p.username == inp.tokenUsername)) := by
    simp only [runHandler]
    unfold deletePlayerSelf playersDelete
    cases hf : inp.dbFault
    all_goals simp [hf]
    all_goals repeat' split
    all_goals simp_all
  refine ⟨?_, hpw, hdel, ?_, ?_, ?_⟩
  · rintro hid (rfl | rfl | rfl | rfl) a₁ b₁ c₁ d₁ a₂ b₂ c₂ d₂ <;> rfl
  · intro p hp hne
    constructor
    · rcases hpw with heq | heq <;> rw [heq]
      · exact hp
      · exact List.mem_map.mpr ⟨p, hp, by simp [hne]⟩
    · rcases hdel with heq | heq <;> rw [heq]
      · exact hp
      · exact List.mem_filter.mpr ⟨hp, by simp [hne]⟩
  · intro c hc
    revert hc
    simp only [runHandler]
    unfold createCharacter charactersInsert
    repeat' split
    all_goals intro hc
    all_goals simp_all
    rcases hc with hc | hc
    · exact Or.inl hc
    · subst hc; simp
  · intro c hc
    revert hc
    simp only [runHandler]
    unfold createCampaign campaignsInsert
    repeat' split
    all_goals intro hc
    all_goals simp_all
    rcases hc with hc | hc
    · exact Or.inl hc
    · subst hc; simp

/-- Witness for C2: under alice's token, password change and account
deletion leave bob's record untouched in the sample store. -/
theorem acting_identity_is_token_subject_witness :
    (⟨"bob", "pwb", "Bob"⟩ : Player) ∈
      (runHandler (fun s => s) .changePlayerPassword sampleInput sampleStore).2.players ∧
    (⟨"bob", "pwb", "Bob"⟩ : Player) ∈
      (runHandler (fun s => s) .deletePlayerSelf sampleInput sampleStore).2.players :=
  (acting_identity_is_token_subject (fun s => s) sampleInput sampleStore).2.2.2.1
    ⟨"bob", "pwb", "Bob"⟩ (by decide) (by decide)

/-- C3: login failure is indistinguishable between causes: a request
with a username that matches no player and a request with an existing
username but a password whose hash differs from the stored one receive
the identical response, status 401, category "Player login", message
"Login failed", null data. -/
theorem login_failure_uniform (h : String → String) (inp₁ inp₂ : HandlerInput)
    (store : Store)
    (hb₁ : inp₁.bindOk = true) (hb₂ : inp₂.bindOk = true)
    (hf₁ : inp₁.dbFault = false) (hf₂ : inp₂.dbFault = false)
    (hmissing : playersFind store inp₁.body.username = none)
    (hwrong : ∃ p, playersFind store inp₂.body.username = some p ∧
      p.passwordHash ≠ h inp₂.body.password) :
    runHandler h .loginPlayer inp₁ store =
      (sendJSONResponse 401 "Player login" "Login failed" none, store)
    ∧ runHandler h .loginPlayer inp₂ store = runHandler h .loginPlayer inp₁ store := by
  obtain ⟨p, hp, hne⟩ := hwrong
  constructor
  · simp [runHandler, loginPlayer, hb₁, playersAuthenticate, hf₁, hmissing]
  · simp [runHandler, loginPlayer, hb₁, hb₂, playersAuthenticate, hf₁, hf₂, hmissing,
      hp, hne]

/-- Witness for C3: in the sample store, logging in as the unknown user
"nobody" and logging in as "alice" with the wrong password produce the
same 401 response. -/
theorem login_failure_uniform_witness :
    runHandler (fun s => s) .loginPlayer
      { sampleInput with body := { sampleBody with username := "nobody" } } sampleStore =
      (sendJSONResponse 401 "Player login" "Login failed" none, sampleStore)
    ∧ runHandler (fun s => s) .loginPlayer
        { sampleInput with body := { sampleBody with password := "wrong" } } sampleStore =
      runHandler (fun s => s) .loginPlayer
        { sampleInput with body := { sampleBody with username := "nobody" } } sampleStore :=
  login_failure_uniform (fun s => s) _ _ sampleStore (by decide) (by decide) (by decide)
    (by decide) (by decide) ⟨⟨"alice", "pw1", "Alice"⟩, by decide, by decide⟩

/-- C4 counterexample: the registered password-change handler completes
a well-formed successful request without sending any response envelope
(the handler's success path is `return nil`). -/
theorem password_change_success_sends_no_envelope :
    HandlerId.changePlayerPassword ∈ registeredHandlers ∧
    (runHandler (fun s => s) .changePlayerPassword sampleInput sampleStore).1 = none := by
  constructor
  · decide
  · decide

/-- C4 as amended: every response a registered handler sends is the
`{category, message, data}` envelope (all sent responses are built by
`sendJSONResponse`), and every registered handler other than
`changePlayerPassword` and `deletePlayerSelf` sends one on every path;
those two send an envelope on every failure path but complete without
any response exactly on their success path. -/
theorem envelope_on_all_but_two_success_paths (h : String → String) (hid : HandlerId)
    (inp : HandlerInput) (store : Store) (hmem : hid ∈ registeredHandlers) :
    (hid ≠ .changePlayerPassword → hid ≠ .deletePlayerSelf →
      ((runHandler h hid inp store).1).isSome = true)
    ∧ ((runHandler h .changePlayerPassword inp store).1 = none ↔
        trimSpace inp.tokenUsername ≠ "" ∧ inp.bindOk = true ∧
        trimSpace inp.body.newPassword ≠ "" ∧ trimSpace inp.body.confirmation ≠ "" ∧
        trimSpace inp.body.newPassword = trimSpace inp.body.confirmation ∧
        inp.dbFault = false)
    ∧ ((runHandler h .deletePlayerSelf inp store).1 = none ↔
        trimSpace inp.tokenUsername ≠ "" ∧ inp.dbFault = false) := by
  refine ⟨?_, ?_, ?_⟩
  · intro h1 h2
    cases hid
    all_goals first
      | exact absurd rfl h1
      | exact absurd rfl h2
      | (simp only [runHandler, loginPlayer, createPlayer, retrievePlayer, createCharacter,
          retrieveCharacter, retrieveUserCharacters, deleteCharacter, createSpell,
          retrieveSpell, deleteSpell, retrieveAllCharacterSpells, getCountSpellsPerSchool,
          createItem, retrieveItem, retrieveAllCharacterItems, deleteItem, getItemStats,
          createCampaign, updateCharacter, updateCampaign, deleteCampaign,
          getsPlayersCreatedCampaigns, getAllCharacterCampaigns, getPlayersAttendedAll,
          retrieveAllStats, sendJSONResponse]
         repeat' split
         all_goals simp)
  · simp only [runHandler]
    unfold changePlayerPassword playersUpdatePassword
    cases hf : inp.dbFault
    all_goals simp [hf]
    all_goals repeat' split
    all_goals simp_all [sendJSONResponse]
    all_goals tauto
  · simp only [runHandler]
    unfold deletePlayerSelf playersDelete
    cases hf : inp.dbFault
    all_goals simp [hf]
    all_goals repeat' split
    all_goals simp_all [sendJSONResponse]

/-- Witness for C4 as amended: the login handler always sends an
envelope, here on a concrete successful login. -/
theorem envelope_on_all_but_two_success_paths_witness :
    ((runHandler (fun s => s) .loginPlayer sampleInput sampleStore).1).isSome = true :=
  (envelope_on_all_but_two_success_paths (fun s => s) .loginPlayer sampleInput sampleStore
    (by decide)).1 (by decide) (by decide)

/-- C5 counterexample: the registered player-attendance handler maps a
generic (non-`NotFound`) persistence failure to HTTP 401, not 500. -/
theorem attendance_storage_error_maps_to_401 :
    HandlerId.getPlayersAttendedAll ∈ registeredHandlers ∧
    (runHandler (fun s => s) .getPlayersAttendedAll { sampleInput with dbFault := true }
      sampleStore).1 = sendJSONResponse 401
        "Campaign stats -  Players with perfect attendance in requestor\x27s created campaigns"
        "Retrieval failed" none := by
  constructor
  · decide
  · decide

/-- C5 as amended: when a request that has passed its handler's guards
hits a generic (non-`NotFound`) persistence failure, the handler answers
with the status of `faultStatus`: 500 for every registered handler
except `loginPlayer` and `getPlayersAttendedAll` (401) and
`retrievePlayer`, `retrieveSpell`, `retrieveAllCharacterSpells`,
`retrieveAllCharacterItems` (404). -/
theorem storage_error_status_by_handler (h : String → String) (hid : HandlerId)
    (inp : HandlerInput) (store : Store) (hmem : hid ∈ registeredHandlers)
    (hreach : reachesRepo hid inp = true) (hfault : inp.dbFault = true) :
    ((runHandler h hid inp store).1).map Response.status = some (faultStatus hid) := by
  cases hid
  all_goals first
    | exact absurd hmem (by decide)
    | (simp only [reachesRepo, Bool.and_eq_true, bne_iff_ne, ne_eq,
         Option.isSome_iff_exists, beq_iff_eq] at hreach
       simp only [runHandler, loginPlayer, createPlayer, retrievePlayer, changePlayerPassword,
         deletePlayerSelf, createCharacter, retrieveCharacter, retrieveUserCharacters,
         deleteCharacter, createSpell, retrieveSpell, deleteSpell, retrieveAllCharacterSpells,
         getCountSpellsPerSchool, createItem, retrieveItem, retrieveAllCharacterItems,
         deleteItem, getItemStats, createCampaign, deleteCampaign,
         getsPlayersCreatedCampaigns, getAllCharacterCampaigns, getPlayersAttendedAll,
         retrieveAllStats, playersAuthenticate, playersInsert, playersGet,
         playersUpdatePassword, playersDelete, charactersInsert, charactersGet,
         charactersGetAllUser, charactersDelete, spellsInsert, spellsGet, spellsDelete,
         spellsGetAllCharacter, spellsCountPerSchool, itemsInsert, itemsGet, itemsDelete,
         itemsGetAllCharacter, itemsGetStats, campaignsInsert, campaignsDelete,
         campaignsGetPlayersCreated, campaignsGetAllCharacter,
         campaignsGetPlayersAttendedAll, statsGetAll, sendJSONResponse, faultStatus, hfault]
       repeat' split
       all_goals simp_all)

/-- Witness for C5 as amended: a persistence failure during character
creation surfaces as 500. -/
theorem storage_error_status_by_handler_witness :
    ((runHandler (fun s => s) .createCharacter { sampleInput with dbFault := true }
      sampleStore).1).map Response.status = some (faultStatus .createCharacter) :=
  storage_error_status_by_handler (fun s => s) .createCharacter _ sampleStore
    (by decide) (by decide) (by decide)

/-- C6 counterexample: no registered route dispatches to the
`updateCharacter` handler, and the only PUT route in the table is the
password-change route — so character update is not reachable through
the exposed route set, refuting the read/update/delete triple. -/
theorem no_character_update_route :
    (registerRoutes.all (fun r => !(r.handler == HandlerId.updateCharacter))) = true ∧
    (registerRoutes.all (fun r => !(r.method == Method.PUT) ||
      (r.path == "/auth/player/me/password"))) = true := by
  decide

/-- C6 as amended: a character can be read and deleted by numeric ID
through registered routes — `GET /character/:id` returns the stored row
and `DELETE /auth/character/:id` removes exactly the rows with the
parsed id — but the `updateCharacter` handler is registered on no
route, so update is not exposed. -/
theorem character_read_delete_routes (h : String → String) (inp : HandlerInput)
    (store : Store) (n : Int) (c : Character)
    (hn : atoi inp.idParam = some n) (hf : inp.dbFault = false) :
    (⟨.GET, "/character/:id", .retrieveCharacter⟩ : Route) ∈ registerRoutes
    ∧ (⟨.DELETE, "/auth/character/:id", .deleteCharacter⟩ : Route) ∈ registerRoutes
    ∧ (store.characters.find? (fun ch => ch.id == n) = some c →
        (runHandler h .retrieveCharacter inp store).1 =
          sendJSONResponse 200 "Character retrieval" "Retrieval successful"
            (some (.character c)))
    ∧ ((runHandler h .deleteCharacter inp store).2.characters =
        store.characters.filter (fun ch => !(ch.id == n)))
    ∧ (registerRoutes.all (fun r => !(r.handler == HandlerId.updateCharacter))) = true := by
  refine ⟨by decide, by decide, ?_, ?_, by decide⟩
  · intro hfind
    simp [runHandler, retrieveCharacter, hn, charactersGet, hf, hfind]
  · simp [runHandler, deleteCharacter, hn, charactersDelete, hf]

/-- Witness for C6 as amended: reading character 1 of the sample store
returns the stored row. -/
theorem character_read_delete_routes_witness :
    (runHandler (fun s => s) .retrieveCharacter sampleInput sampleStore).1 =
      sendJSONResponse 200 "Character retrieval" "Retrieval successful"
        (some (.character ⟨1, "alice", "Conan", "barbarian"⟩)) :=
  (character_read_delete_routes (fun s => s) sampleInput sampleStore 1
    ⟨1, "alice", "Conan", "barbarian"⟩ (by decide) (by decide)).2.2.1 (by decide)

/-- C7 counterexample: the path segment `a+b` is a well-formed
percent-encoding whose percent-decoding is `a+b`, and that spell is
stored for character 1; the handler nevertheless answers 404, because
it query-unescapes the segment to `a b` before the lookup — so the
repository lookup does not use the percent-decoded name. -/
theorem plus_sign_not_percent_decoded :
    percentDecode "a+b" = some "a+b" ∧
    spellsFind plusStore 1 "a+b" = some ⟨1, "a+b", "evocation"⟩ ∧
    HandlerId.retrieveSpell ∈ registeredHandlers ∧
    (runHandler (fun s => s) .retrieveSpell plusInput plusStore).1 =
      sendJSONResponse 404 "Spell retrieval" "Retrieval failed" none :=
  ⟨by decide, by decide, by decide, by decide⟩

/-- C7 as amended: for every spell or item retrieval/deletion request
whose `:name` segment Go's `url.QueryUnescape` accepts (percent-escapes
decoded, `+` decoded to a space), the repository lookup uses exactly
the query-unescaped name; a segment `QueryUnescape` rejects yields 422
with the store unchanged and the repository never consulted. -/
theorem name_segment_query_unescaped (h : String → String) (inp : HandlerInput)
    (store : Store) (n : Int)
    (hn : atoi inp.idParam = some n) (hf : inp.dbFault = false) :
    (∀ d, queryUnescape inp.nameParam = some d →
      ((∀ s, spellsFind store n d = some s →
          runHandler h .retrieveSpell inp store =
            (sendJSONResponse 200 "Spell retrieval" "Retrieval successful"
              (some (.spell s)), store))
       ∧ (spellsFind store n d = none →
          runHandler h .retrieveSpell inp store =
            (sendJSONResponse 404 "Spell retrieval" "Retrieval failed" none, store))
       ∧ ((runHandler h .deleteSpell inp store).2.spells =
            if (spellsFind store n d).isSome then
              store.spells.filter (fun s => !(s.characterID == n && s.name == d))
            else store.spells)
       ∧ (∀ i, itemsFind store n d = some i →
          runHandler h .retrieveItem inp store =
            (sendJSONResponse 200 "Item retrieval" "Retrieval successful"
              (some (.item i)), store))
       ∧ (itemsFind store n d = none →
          runHandler h .retrieveItem inp store =
            (sendJSONResponse 404 "Item retrieval" "Retrieval failed" none, store))
       ∧ ((runHandler h .deleteItem inp store).2.items =
            if (itemsFind store n d).isSome then
              store.items.filter (fun i => !(i.characterID == n && i.name == d))
            else store.items)))
    ∧ (queryUnescape inp.nameParam = none →
        runHandler h .retrieveSpell inp store =
          (sendJSONResponse 422 "Spell retrieval" "Retrieval failed" none, store)
        ∧ runHandler h .deleteSpell inp store =
          (sendJSONResponse 422 "Spell deletion" "Deletion failed" none, store)
        ∧ runHandler h .retrieveItem inp store =
          (sendJSONResponse 422 "Item retrieval" "Retrieval failed" none, store)
        ∧ runHandler h .deleteItem inp store =
          (sendJSONResponse 422 "Item deletion" "Deletion failed" none, store)) := by
  constructor
  · intro d hd
    refine ⟨?_, ?_, ?_, ?_, ?_, ?_⟩
    · intro s hs
      simp [runHandler, retrieveSpell, hn, hd, spellsGet, hf, hs]
    · intro hs
      simp [runHandler, retrieveSpell, hn, hd, spellsGet, hf, hs]
    · cases hfind : (spellsFind store n d).isSome
      · simp [runHandler, deleteSpell, hn, hd, spellsDelete, hf, hfind]
      · simp [runHandler, deleteSpell, hn, hd, spellsDelete, hf, hfind]
    · intro i hi
      simp [runHandler, retrieveItem, hn, hd, itemsGet, hf, hi]
    · intro hi
      simp [runHandler, retrieveItem, hn, hd, itemsGet, hf, hi]
    · cases hfind : (itemsFind store n d).isSome
      · simp [runHandler, deleteItem, hn, hd, itemsDelete, hf, hfind]
      · simp [runHandler, deleteItem, hn, hd, itemsDelete, hf, hfind]
  · intro hd
    refine ⟨?_, ?_, ?_, ?_⟩
    · simp [runHandler, retrieveSpell, hn, hd]
    · simp [runHandler, deleteSpell, hn, hd]
    · simp [runHandler, retrieveItem, hn, hd]
    · simp [runHandler, deleteItem, hn, hd]

/-- Witness for C7 as amended: retrieving the unescaped name
`Fireball` for character 1 of the sample store succeeds with the stored
spell. -/
theorem name_segment_query_unescaped_witness :
    runHandler (fun s => s) .retrieveSpell sampleInput sampleStore =
      (sendJSONResponse 200 "Spell retrieval" "Retrieval successful"
        (some (.spell ⟨1, "Fireball", "evocation"⟩)), sampleStore) :=
  ((name_segment_query_unescaped (fun s => s) sampleInput sampleStore 1
    (by decide) (by decide)).1 "Fireball" (by decide)).1
    ⟨1, "Fireball", "evocation"⟩ (by decide)

/-- C8: a campaign's dungeon master (and name) are fixed at creation.
In a store whose campaign ids are pairwise distinct and whose id
sequence is fresh, every handler reachable through a registered route
leaves the dungeon-master and name of every surviving campaign row
unchanged: a row present before and after the request (matched by id)
has the same dungeon master and the same name. -/
theorem dungeonMaster_fixed_after_creation (h : String → String) (hid : HandlerId)
    (inp : HandlerInput) (store : Store)
    (hmem : hid ∈ registeredHandlers)
    (huniq : store.campaigns.Pairwise (fun a b => a.id ≠ b.id))
    (hfresh : ∀ c ∈ store.campaigns, c.id ≠ store.nextCampaignID) :
    ∀ c c', c ∈ store.campaigns → c' ∈ (runHandler h hid inp store).2.campaigns →
      c'.id = c.id → c'.dungeonMaster = c.dungeonMaster ∧ c'.name = c.name := by
  have hshape : (runHandler h hid inp store).2.campaigns = store.campaigns
      ∨ (∃ x, (runHandler h hid inp store).2.campaigns =
          store.campaigns.filter (fun cc => !(cc.id == x)))
      ∨ (∃ y : Campaign, y.id = store.nextCampaignID ∧
          (runHandler h hid inp store).2.campaigns = store.campaigns ++ [y]) := by
    cases hid
    case updateCharacter => exact absurd hmem (by decide)
    case updateCampaign => exact absurd hmem (by decide)
    case deleteCampaign =>
      cases hf : inp.dbFault
      all_goals simp only [runHandler]
      all_goals unfold deleteCampaign campaignsDelete
      all_goals simp [hf]
      all_goals repeat' split
      all_goals first
        | (left ; simp ; done)
        | (left ; simp_all ; done)
        | (rename_i cid heq ; exact Or.inr (Or.inl ⟨cid, rfl⟩))
    case createCampaign =>
      cases hf : inp.dbFault
      all_goals simp only [runHandler]
      all_goals unfold createCampaign campaignsInsert
      all_goals simp [hf]
      all_goals repeat' split
      all_goals first
        | (left ; simp ; done)
        | (left ; simp_all ; done)
        | (rename_i cid store1 heq
           split at heq
           · simp only [Except.ok.injEq, Prod.mk.injEq] at heq
             obtain ⟨hcid, hstore⟩ := heq
             subst hstore
             exact Or.inr (Or.inr ⟨_, rfl, rfl⟩)
           · simp at heq)
    all_goals refine Or.inl ?_
    all_goals cases hf : inp.dbFault
    all_goals simp [runHandler, loginPlayer, createPlayer, retrievePlayer,
      changePlayerPassword, deletePlayerSelf, createCharacter, retrieveCharacter,
      retrieveUserCharacters, deleteCharacter, createSpell, retrieveSpell, deleteSpell,
      retrieveAllCharacterSpells, getCountSpellsPerSchool, createItem, retrieveItem,
      retrieveAllCharacterItems, deleteItem, getItemStats,
      getsPlayersCreatedCampaigns, getAllCharacterCampaigns, getPlayersAttendedAll,
      retrieveAllStats, playersAuthenticate, playersInsert, playersGet,
      playersUpdatePassword, playersDelete, charactersInsert, charactersGet,
      charactersGetAllUser, charactersDelete, spellsInsert, spellsGet, spellsDelete,
      spellsGetAllCharacter, spellsCountPerSchool, itemsInsert, itemsGet, itemsDelete,
      itemsGetAllCharacter, itemsGetStats, campaignsGetPlayersCreated,
      campaignsGetAllCharacter, campaignsGetPlayersAttendedAll, statsGetAll, hf]
    all_goals repeat' split
    all_goals first
      | (simp_all ; done)
      | (rename_i s1 heq
         split at heq <;> (try simp only [Except.ok.injEq] at heq) <;>
           (try subst heq) <;> simp_all)
  intro c c' hc hc' heq
  rcases hshape with heq2 | ⟨x, heq2⟩ | ⟨y, hyid, heq2⟩
  · rw [heq2] at hc'
    have hcc : c' = c := pairwise_ids_eq huniq c' hc' c hc heq
    rw [hcc]
    exact ⟨rfl, rfl⟩
  · rw [heq2] at hc'
    have hcc : c' = c :=
      pairwise_ids_eq huniq c' (List.mem_filter.mp hc').1 c hc heq
    rw [hcc]
    exact ⟨rfl, rfl⟩
  · rw [heq2] at hc'
    rcases List.mem_append.mp hc' with hc'2 | hc'2
    · have hcc : c' = c := pairwise_ids_eq huniq c' hc'2 c hc heq
      rw [hcc]
      exact ⟨rfl, rfl⟩
    · have hcy : c' = y := List.mem_singleton.mp hc'2
      have hcontra : c.id = store.nextCampaignID := by
        rw [← heq, hcy, hyid]
      exact absurd hcontra (hfresh c hc)

/-- Witness for C8: after a successful campaign creation on the sample
store, the pre-existing campaign keeps its dungeon master and name. -/
theorem dungeonMaster_fixed_after_creation_witness :
    (⟨1, "Quest", "Town", "active", "alice"⟩ : Campaign).dungeonMaster =
      (⟨1, "Quest", "Town", "active", "alice"⟩ : Campaign).dungeonMaster ∧
    (⟨1, "Quest", "Town", "active", "alice"⟩ : Campaign).name =
      (⟨1, "Quest", "Town", "active", "alice"⟩ : Campaign).name :=
  dungeonMaster_fixed_after_creation (fun s => s) .createCampaign sampleInput sampleStore
    (by decide) (by decide) (by decide)
    ⟨1, "Quest", "Town", "active", "alice"⟩ ⟨1, "Quest", "Town", "active", "alice"⟩
    (by decide) (by decide) (by decide)

/-- C9: `GET /character/:id` and `GET /auth/character/:id` are both
registered to the `retrieveCharacter` handler — literally the same
function — and that handler's outcome does not depend on the token
subject at all, so the two routes agree on every store and every id,
and character reads perform no ownership check. -/
theorem character_read_routes_share_handler :
    (⟨.GET, "/character/:id", .retrieveCharacter⟩ : Route) ∈ registerRoutes
    ∧ (⟨.GET, "/auth/character/:id", .retrieveCharacter⟩ : Route) ∈ registerRoutes
    ∧ ∀ (h : String → String) (inp : HandlerInput) (store : Store) (u v : String),
        runHandler h .retrieveCharacter { inp with tokenUsername := u } store =
        runHandler h .retrieveCharacter { inp with tokenUsername := v } store := by
  refine ⟨by decide, by decide, ?_⟩
  intro h inp store u v
  rfl

/-- C10: password change trims surrounding whitespace before comparison
and storage: a whitespace-only new password is rejected with 422 and
the store unchanged, while a new password and confirmation that agree
after trimming are accepted (the handler completes, sending no body)
and the stored hash of the token subject becomes the hash of the
trimmed new password. -/
theorem password_change_trims_whitespace (h : String → String) (inp : HandlerInput)
    (store : Store)
    (htok : trimSpace inp.tokenUsername ≠ "") (hbind : inp.bindOk = true)
    (hf : inp.dbFault = false) :
    (trimSpace inp.body.newPassword = "" →
      runHandler h .changePlayerPassword inp store =
        (sendJSONResponse 422 "Change player password" "New password must be specified" none,
         store))
    ∧ (trimSpace inp.body.newPassword ≠ "" →
       trimSpace inp.body.newPassword = trimSpace inp.body.confirmation →
        runHandler h .changePlayerPassword inp store =
          (none, { store with players := store.players.map (fun p =>
            if p.username == inp.tokenUsername then
              { p with passwordHash := h (trimSpace inp.body.newPassword) } else p) })) := by
  constructor
  · intro hnp
    simp only [runHandler, changePlayerPassword, hbind, hnp]
    simp [htok]
  · intro hnp hcf
    simp only [runHandler, changePlayerPassword, hbind]
    simp [htok, hnp, ← hcf, playersUpdatePassword, hf]

/-- Witness for C10: the sample request carries new password " pw2 "
and confirmation "pw2"; the change is accepted and alice's stored hash
becomes the hash of the trimmed "pw2". -/
theorem password_change_trims_whitespace_witness :
    runHandler (fun s => s) .changePlayerPassword sampleInput sampleStore =
      (none, { sampleStore with players := sampleStore.players.map (fun p =>
        if p.username == sampleInput.tokenUsername then
          { p with passwordHash := (fun s => s) (trimSpace sampleInput.body.newPassword) }
        else p) }) :=
  (password_change_trims_whitespace (fun s => s) sampleInput sampleStore
    (by decide) (by decide) (by decide)).2 (by decide) (by decide)

end Draco
